import Mathlib

/-!
Verification of the eTuitionBd server (src/index.js, an Express 4 + MongoDB
application, dependencies per README: express ^4.18.2, mongodb ^6.3.0).

Each MongoDB collection is embedded as a Lean `List` of documents; the driver
operations are embedded as list functions: `findOne` is `List.find?`,
`insertOne` appends, `updateOne` updates the first matching document,
`updateMany` maps over all matching documents, `deleteOne` deletes the first
matching document.  Each route handler from src/index.js is embedded as a pure
function from its request parameters and the collections it touches to the
updated collections plus the HTTP status code (and response payload where a
claim needs it).  MongoDB `_id` values are embedded as `Nat`, `Date` values as
`Nat` timestamps.  JavaScript decimal numbers are embedded in fixed-point
tenths as `Int`: a review rating of 5 is stored as 50 tenths, and the
`toFixed(1)`/`parseFloat` rounding of the rating endpoint becomes integer
rounding to the nearest tenth.  Payment amounts (`parseFloat(amount)`) are
embedded as `Int`; no claim performs fractional arithmetic on them.
-/

/-- MongoDB `updateOne`: apply `f` to the first document matching `p`. -/
def updateFirst {α : Type} (p : α → Bool) (f : α → α) : List α → List α
  | [] => []
  | x :: xs => if p x then f x :: xs else x :: updateFirst p f xs

/-- MongoDB `updateMany`: apply `f` to every document matching `p`. -/
def updateAll {α : Type} (p : α → Bool) (f : α → α) (l : List α) : List α :=
  l.map (fun x => if p x then f x else x)

/-- MongoDB `deleteOne`: remove the first document matching `p`. -/
def deleteFirst {α : Type} (p : α → Bool) : List α → List α
  | [] => []
  | x :: xs => if p x then xs else x :: deleteFirst p xs

/-- A document of the `users` collection. -/
structure User where
  id : Nat
  email : String
  role : String
  name : Option String
  displayName : Option String
deriving Repr, DecidableEq

/-- A document of the `tuitions` collection (tuition posts). -/
structure Tuition where
  id : Nat
  studentEmail : Option String
  studentId : Option String
  subject : String
  className : String
  location : String
  salary : String
  status : String
  assignedTutorEmail : Option String
  assignedTutorId : Option String
  createdAt : Nat
deriving Repr, DecidableEq

/-- A document of the `tutorApplications` collection. -/
structure Application where
  id : Nat
  tuitionId : Nat
  tutorEmail : String
  studentEmail : Option String
  status : String
  paymentId : Option String
  qualification : Option String
  expectedSalary : Option String
  message : Option String
  availability : Option String
  experience : Option String
  subject : Option String
  createdAt : Nat
deriving Repr, DecidableEq

/-- A document of the `payments` collection. -/
structure Payment where
  transactionId : String
  studentEmail : String
  tutorEmail : String
  tuitionId : Nat
  applicationId : Nat
  amount : Int
  currency : String
  status : String
  method : String
  date : Nat
deriving Repr, DecidableEq

/-- A document of the `reviews` collection (the fields used by the rating
endpoint).  `rating` holds `Number(rating)` in fixed-point tenths. -/
structure Review where
  tutorEmail : String
  studentEmail : String
  rating : Int
  createdAt : Nat
deriving Repr, DecidableEq

/-- A document of the `bookmarks` collection. -/
structure Bookmark where
  id : Nat
  userEmail : String
  itemId : String
  itemType : String
  createdAt : Nat
deriving Repr, DecidableEq

/-- A document of the `notifications` collection. -/
structure Notification where
  id : Nat
  userEmail : String
  kind : String
  message : String
  link : String
  read : Bool
  createdAt : Nat
deriving Repr, DecidableEq

/-- A document of the `schedules` collection (the fields used by the delete endpoint). -/
structure Schedule where
  id : Nat
  tuitionId : Nat
  tutorEmail : String
  studentEmail : String
  createdBy : String
  creatorRole : String
  status : String
  createdAt : Nat
deriving Repr, DecidableEq

/-- The collections touched by the hiring workflow and the application endpoints. -/
structure Store where
  tuitions : List Tuition
  applications : List Application
  payments : List Payment
deriving Repr, DecidableEq

/-- Result of a role-gate middleware: respond 403, or call `next()`. -/
inductive GateResult
  | forbidden
  | proceed
deriving Repr, DecidableEq

/-- `verifySTUDENT` middleware (src/index.js lines 211-219): look the caller up
by the verified token email and require the stored role to be `student`. -/
def verifySTUDENT (tokenEmail : String) (users : List User) : GateResult :=
  match users.find? (fun u => u.email == tokenEmail) with
  | none => .forbidden
  | some u => if u.role == "student" then .proceed else .forbidden

/-- `verifyTUTOR` middleware (lines 221-229). -/
def verifyTUTOR (tokenEmail : String) (users : List User) : GateResult :=
  match users.find? (fun u => u.email == tokenEmail) with
  | none => .forbidden
  | some u => if u.role == "tutor" then .proceed else .forbidden

/-- `verifyADMIN` middleware (lines 231-239). -/
def verifyADMIN (tokenEmail : String) (users : List User) : GateResult :=
  match users.find? (fun u => u.email == tokenEmail) with
  | none => .forbidden
  | some u => if u.role == "admin" then .proceed else .forbidden

/-- Express middleware chaining: a forbidden gate responds 403 and the gated
handler is never invoked; otherwise the handler runs. -/
def runGated {σ : Type} (g : GateResult) (handler : σ → σ × Nat) (s : σ) : σ × Nat :=
  match g with
  | .forbidden => (s, 403)
  | .proceed => handler s

/-- The `displayName` → `name` fill at the top of POST /user (line 255):
`if (user.displayName && !user.name) user.name = user.displayName`. -/
def normalizeUser (u : User) : User :=
  if u.displayName.isSome && u.name.isNone then { u with name := u.displayName } else u

/-- POST /user (lines 252-264): look up an existing user by email; if found,
reply `insertedId: null` without writing; otherwise insert the one document. -/
def postUser (u : User) (users : List User) : List User × Option Nat :=
  let v := normalizeUser u
  match users.find? (fun x => x.email == v.email) with
  | some _ => (users, none)
  | none => (users ++ [v], some v.id)

/-- Lower-casing of a JavaScript `toLowerCase()` call, character by character. -/
def lowerStr (s : String) : String := ⟨s.data.map Char.toLower⟩

/-- Whether `pat` is a prefix of `l` (character comparison). -/
def startsWithChars : List Char → List Char → Bool
  | _, [] => true
  | [], _ :: _ => false
  | h :: hs, p :: ps => h == p && startsWithChars hs ps

/-- Whether `pat` occurs as a contiguous substring of `l`. -/
def containsChars : List Char → List Char → Bool
  | [], pat => pat.isEmpty
  | h :: hs, pat => startsWithChars (h :: hs) pat || containsChars hs pat

/-- The case-insensitive substring test denoted by the handlers' use of
`$regex: pattern, $options: 'i'` on plain text filters. -/
def containsCI (hay pat : String) : Bool :=
  containsChars (lowerStr hay).data (lowerStr pat).data

/-- Lexicographic comparison of character lists. -/
def leChars : List Char → List Char → Bool
  | [], _ => true
  | _ :: _, [] => false
  | a :: as, b :: bs => if a == b then leChars as bs else decide (a < b)

/-- Lexicographic string comparison (MongoDB's default string ordering). -/
def leStr (a b : String) : Bool := leChars a.data b.data

/-- Insert `x` into `l` in front of the first element not below it. -/
def insertSorted {α : Type} (le : α → α → Bool) (x : α) : List α → List α
  | [] => [x]
  | y :: ys => if le x y then x :: y :: ys else y :: insertSorted le x ys

/-- The `.sort(sortOptions)` cursor step, embedded as an insertion sort. -/
def sortByBool {α : Type} (le : α → α → Bool) (l : List α) : List α :=
  l.foldr (insertSorted le) []

/-- The query parameters of GET /tuitions (lines 443-493).  `page = 0` /
`limit = 0` stand for an absent or unparsable parameter, which
`parseInt(...) || default` maps to the default. -/
structure TuitionsQuery where
  page : Nat
  limit : Nat
  search : Option String
  sort : Option String
  subject : Option String
  location : Option String
  stuClass : Option String

/-- The MongoDB query object built by GET /tuitions: `status: 'approved'`
always, plus the optional `$or` search and the per-field regex filters. -/
def tuitionMatches (q : TuitionsQuery) (t : Tuition) : Bool :=
  t.status == "approved"
  && (match q.search with
      | none => true
      | some s => containsCI t.subject s || containsCI t.location s)
  && (match q.subject with
      | none => true
      | some s => containsCI t.subject s)
  && (match q.location with
      | none => true
      | some s => containsCI t.location s)
  && (match q.stuClass with
      | none => true
      | some s => containsCI t.className s)

/-- The `sortOptions` of GET /tuitions: `price_asc` / `price_desc` order by
the (string-valued) salary; anything else, including `newest` and the
default, orders by `created_at` descending. -/
def tuitionLe (sortOpt : Option String) (a b : Tuition) : Bool :=
  if sortOpt == some "price_asc" then leStr a.salary b.salary
  else if sortOpt == some "price_desc" then leStr b.salary a.salary
  else b.createdAt ≤ a.createdAt

/-- The response shape of the listing endpoints. -/
structure Paged (α : Type) where
  data : List α
  total : Nat
  currentPage : Nat
  totalPages : Nat
deriving Repr, DecidableEq

/-- GET /tuitions (lines 443-493), the public listing: filter by the query,
count the total, sort, then apply skip/limit paging.  (A second route with the
same path at line 1159 is never reached: Express dispatches to the first
registered match.) -/
def getTuitions (q : TuitionsQuery) (tuitions : List Tuition) : Paged Tuition :=
  let page := if q.page == 0 then 1 else q.page
  let limit := if q.limit == 0 then 9 else q.limit
  let skip := (page - 1) * limit
  let matching := tuitions.filter (tuitionMatches q)
  let total := matching.length
  let sorted := sortByBool (tuitionLe q.sort) matching
  { data := (sorted.drop skip).take limit
    total := total
    currentPage := page
    totalPages := (total + limit - 1) / limit }

/-- The payload of GET /tutor-rating/:tutorEmail; the average is in tenths. -/
structure RatingResult where
  averageRatingTenths : Int
  totalReviews : Nat
deriving Repr, DecidableEq

/-- GET /tutor-rating/:tutorEmail (lines 597-614): with no reviews reply
zero / zero, otherwise sum the ratings and round the average to one decimal
(`toFixed(1)` plus `parseFloat`, here round-half-up on non-negative tenths:
the average of `T` total tenths over `n` reviews is `(2*T + n) / (2*n)`). -/
def tutorRating (tutorEmail : String) (reviews : List Review) : RatingResult :=
  let rs := reviews.filter (fun r => r.tutorEmail == tutorEmail)
  if rs.length == 0 then { averageRatingTenths := 0, totalReviews := 0 }
  else
    let totalTenths := rs.foldl (fun acc r => acc + r.rating) 0
    { averageRatingTenths := (2 * totalTenths + rs.length) / (2 * (rs.length : Int))
      totalReviews := rs.length }

/-- The filter `{ userEmail, itemId, type }` of the bookmark endpoints. -/
def bookmarkMatches (userEmail itemId itemType : String) (b : Bookmark) : Bool :=
  b.userEmail == userEmail && b.itemId == itemId && b.itemType == itemType

/-- The bookmark document inserted by POST /bookmarks (lines 637-642). -/
def mkBookmark (userEmail itemId itemType : String) (newId now : Nat) : Bookmark :=
  { id := newId, userEmail := userEmail, itemId := itemId,
    itemType := itemType, createdAt := now }

/-- POST /bookmarks (lines 624-649): if a matching bookmark exists, delete it
by its `_id` and reply `bookmarked: false`; otherwise insert one and reply
`bookmarked: true`.  `newId` is the `_id` MongoDB assigns on insertion. -/
def toggleBookmark (userEmail itemId itemType : String) (newId now : Nat)
    (bms : List Bookmark) : List Bookmark × Bool :=
  match bms.find? (bookmarkMatches userEmail itemId itemType) with
  | some b => (deleteFirst (fun x => x.id == b.id) bms, false)
  | none => (bms ++ [mkBookmark userEmail itemId itemType newId now], true)

/-- GET /is-bookmarked (lines 669-679): membership of the triple. -/
def hasBookmark (userEmail itemId itemType : String) (bms : List Bookmark) : Bool :=
  (bms.find? (bookmarkMatches userEmail itemId itemType)).isSome

/-- PATCH /notifications/read-all (lines 721-732):
`updateMany({ userEmail, read: false }, { $set: { read: true } })`. -/
def markAllRead (userEmail : String) (notifs : List Notification) : List Notification :=
  updateAll (fun n => n.userEmail == userEmail && n.read == false)
    (fun n => { n with read := true }) notifs

/-- POST /apply-tuition (lines 1114-1155): duplicate check on
`(tutorEmail, tuitionId)`, tuition existence, `approved` status, unassigned
check, then insert the application. -/
def applyTuition (tutorEmail : String) (tuitionId : Nat)
    (qualification expectedSalary : Option String) (newId now : Nat)
    (s : Store) : Store × Nat :=
  match s.applications.find? (fun a => a.tutorEmail == tutorEmail && a.tuitionId == tuitionId) with
  | some _ => (s, 409)
  | none =>
    match s.tuitions.find? (fun t => t.id == tuitionId) with
    | none => (s, 404)
    | some t =>
      if t.status != "approved" then (s, 403)
      else if t.assignedTutorEmail.isSome || t.assignedTutorId.isSome then (s, 409)
      else
        let newApp : Application :=
          { id := newId, tuitionId := tuitionId, tutorEmail := tutorEmail,
            studentEmail := t.studentId, status := "pending", paymentId := none,
            qualification := qualification, expectedSalary := expectedSalary,
            message := none, availability := none, experience := none,
            subject := some t.subject, createdAt := now }
        ({ s with applications := s.applications ++ [newApp] }, 200)

/-- POST /tuition-application (lines 1368-1401): same duplicate check, tuition
existence and `approved` status, then insert (no assigned-tutor check). -/
def tuitionApplication (tutorEmail : String) (tuitionId : Nat)
    (message expectedSalary availability experience : Option String)
    (newId now : Nat) (s : Store) : Store × Nat :=
  match s.applications.find? (fun a => a.tutorEmail == tutorEmail && a.tuitionId == tuitionId) with
  | some _ => (s, 409)
  | none =>
    match s.tuitions.find? (fun t => t.id == tuitionId) with
    | none => (s, 404)
    | some t =>
      if t.status != "approved" then (s, 403)
      else
        let newApp : Application :=
          { id := newId, tuitionId := tuitionId, tutorEmail := tutorEmail,
            studentEmail := t.studentId, status := "pending", paymentId := none,
            qualification := none, expectedSalary := expectedSalary,
            message := message, availability := availability,
            experience := experience, subject := none, createdAt := now }
        ({ s with applications := s.applications ++ [newApp] }, 200)

/-- The payment document inserted by POST /process-payment (lines 1475-1486). -/
def processPaymentDoc (transactionId studentEmail tutorEmail : String)
    (tuitionId applicationId : Nat) (amount : Int) (method : Option String)
    (now : Nat) : Payment :=
  { transactionId := transactionId, studentEmail := studentEmail,
    tutorEmail := tutorEmail, tuitionId := tuitionId,
    applicationId := applicationId, amount := amount, currency := "BDT",
    status := "paid", method := method.getD "Demo Card", date := now }

/-- POST /process-payment (lines 1470-1502): insert the payment, set the
application's status to `accepted`, set the tuition's `assignedTutorEmail`.
No write touches the other applications of the tuition. -/
def processPayment (studentEmail tutorEmail transactionId : String)
    (applicationId tuitionId : Nat) (amount : Int) (method : Option String)
    (now : Nat) (s : Store) : Store × Nat :=
  let doc := processPaymentDoc transactionId studentEmail tutorEmail tuitionId applicationId amount method now
  let s1 : Store := { s with payments := s.payments ++ [doc] }
  let apps2 := updateFirst (fun a => a.id == applicationId)
    (fun a => { a with status := "accepted" }) s1.applications
  let s2 : Store := { s1 with applications := apps2 }
  let tus3 := updateFirst (fun t => t.id == tuitionId)
    (fun t => { t with assignedTutorEmail := some tutorEmail }) s2.tuitions
  let s3 : Store := { s2 with tuitions := tus3 }
  (s3, 200)

/-- The payment document inserted by POST /payments/demo (lines 1544-1558);
its transaction id is `'DEMO_' + new Date().getTime()`. -/
def demoPaymentDoc (studentEmail tutorEmail : String)
    (applicationId tuitionId : Nat) (amount : Int) (now : Nat) : Payment :=
  { transactionId := "DEMO_" ++ toString now, studentEmail := studentEmail,
    tutorEmail := tutorEmail, tuitionId := tuitionId,
    applicationId := applicationId, amount := amount, currency := "BDT",
    status := "paid", method := "Demo PaymentSystem", date := now }

/-- POST /payments/demo (lines 1539-1580) with an injected failure point:
`fails k` tells whether the k-th of the four sequential, unguarded database
writes throws (the write itself then does not land, and no later write runs;
nothing already written is compensated).  The four writes are: insert the
payment; set the chosen application to `approved` with the transaction id;
set the tuition's assigned-tutor fields; set every other application of the
tuition to `rejected`. -/
def paymentsDemoFallible (fails : Nat → Bool) (studentEmail tutorEmail : String)
    (applicationId tuitionId : Nat) (amount : Int) (now : Nat)
    (s : Store) : Store × Except Unit Nat :=
  if fails 0 then (s, .error ()) else
  let doc := demoPaymentDoc studentEmail tutorEmail applicationId tuitionId amount now
  let s1 : Store := { s with payments := s.payments ++ [doc] }
  if fails 1 then (s1, .error ()) else
  let apps2 := updateFirst (fun a => a.id == applicationId)
    (fun a => { a with status := "approved", paymentId := some ("DEMO_" ++ toString now) })
    s1.applications
  let s2 : Store := { s1 with applications := apps2 }
  if fails 2 then (s2, .error ()) else
  let tus3 := updateFirst (fun t => t.id == tuitionId)
    (fun t => { t with assignedTutorEmail := some tutorEmail, assignedTutorId := some tutorEmail })
    s2.tuitions
  let s3 : Store := { s2 with tuitions := tus3 }
  if fails 3 then (s3, .error ()) else
  let apps4 := updateAll (fun a => a.tuitionId == tuitionId && a.id != applicationId)
    (fun a => { a with status := "rejected" }) s3.applications
  let s4 : Store := { s3 with applications := apps4 }
  (s4, .ok 200)

/-- POST /payments/demo on the failure-free path. -/
def paymentsDemo (studentEmail tutorEmail : String) (applicationId tuitionId : Nat)
    (amount : Int) (now : Nat) (s : Store) : Store × Nat :=
  ((paymentsDemoFallible (fun _ => false) studentEmail tutorEmail applicationId
      tuitionId amount now s).1, 200)

/-- How a route handler is registered in src/index.js: wrapped in `catchAsync`
(lines 21-25), or passed to Express as a bare async function. -/
inductive HandlerKind
  | bare
  | wrappedCatchAsync
deriving Repr, DecidableEq

/-- Express 4 (README: `express: ^4.18.2`) response dispatch for the outcome
of an async handler.  A resolved handler's response is sent.  A rejected bare
async handler's promise is never forwarded to the error middleware of lines
1853-1860; the process-level `unhandledRejection` listener (lines 29-31) only
logs it, so no response is sent.  Only a handler wrapped in `catchAsync`
reaches the error middleware, which replies `err.status || 500`, i.e. 500 for
a plain thrown error. -/
def dispatchResponse (kind : HandlerKind) (r : Except Unit Nat) : Option Nat :=
  match r with
  | .ok code => some code
  | .error _ =>
    match kind with
    | .bare => none
    | .wrappedCatchAsync => some 500

/-- POST /payments/demo is registered bare (line 1539), not via `catchAsync`. -/
def paymentsDemoKind : HandlerKind := .bare

/-- POST /process-payment is registered bare (line 1470), not via `catchAsync`. -/
def processPaymentKind : HandlerKind := .bare

/-- DELETE /applications/:id (lines 1423-1427): delete by `_id`; there is no
ownership comparison against the caller in the handler body. -/
def deleteApplicationHandler (id : Nat) (apps : List Application) : List Application × Nat :=
  (deleteFirst (fun a => a.id == id) apps, 200)

/-- DELETE /schedules/:id (lines 1081-1103): 404 when absent, 403 unless the
caller (lower-cased) equals the schedule's `createdBy` (lower-cased), else
delete. -/
def deleteScheduleHandler (tokenEmail : String) (id : Nat)
    (schedules : List Schedule) : List Schedule × Nat :=
  let userEmail := lowerStr tokenEmail
  match schedules.find? (fun sch => sch.id == id) with
  | none => (schedules, 404)
  | some sch =>
    if lowerStr sch.createdBy != userEmail then (schedules, 403)
    else (deleteFirst (fun sch => sch.id == id) schedules, 200)

/-! ### Concrete fixtures used by witnesses and counterexamples -/

/-- A stored student user. -/
def fixStudent : User :=
  { id := 1, email := "owner@x", role := "student", name := some "Owner", displayName := none }

/-- A second stored student user, not the owner of anything below. -/
def fixOtherStudent : User :=
  { id := 2, email := "other@x", role := "student", name := some "Other", displayName := none }

/-- The users collection holding the two students. -/
def fixUsers : List User := [fixStudent, fixOtherStudent]

/-- An approved, unassigned tuition post with id 1. -/
def fixTuition : Tuition :=
  { id := 1, studentEmail := some "owner@x", studentId := some "owner@x",
    subject := "Physics", className := "10", location := "Dhaka", salary := "5000",
    status := "approved", assignedTutorEmail := none, assignedTutorId := none,
    createdAt := 10 }

/-- A pending tuition post (not approved). -/
def fixPendingTuition : Tuition :=
  { id := 2, studentEmail := some "owner@x", studentId := some "owner@x",
    subject := "Chemistry", className := "9", location := "Dhaka", salary := "4000",
    status := "pending", assignedTutorEmail := none, assignedTutorId := none,
    createdAt := 20 }

/-- A pending application by tutor t1 on tuition 1, with id 1. -/
def fixAppA : Application :=
  { id := 1, tuitionId := 1, tutorEmail := "t1@x", studentEmail := some "owner@x",
    status := "pending", paymentId := none, qualification := none,
    expectedSalary := none, message := none, availability := none,
    experience := none, subject := none, createdAt := 11 }

/-- A pending application by tutor t2 on the same tuition 1, with id 2. -/
def fixAppB : Application :=
  { id := 2, tuitionId := 1, tutorEmail := "t2@x", studentEmail := some "owner@x",
    status := "pending", paymentId := none, qualification := none,
    expectedSalary := none, message := none, availability := none,
    experience := none, subject := none, createdAt := 12 }

/-- The store on which the hiring workflow is exercised: one approved tuition,
two pending applications on it, no payments. -/
def fixStore : Store :=
  { tuitions := [fixTuition], applications := [fixAppA, fixAppB], payments := [] }

/-- Three reviews of tutor t with ratings 5, 4 and 3 (in tenths). -/
def fixReviews543 : List Review :=
  [ { tutorEmail := "t@x", studentEmail := "s1@x", rating := 50, createdAt := 1 },
    { tutorEmail := "t@x", studentEmail := "s2@x", rating := 40, createdAt := 2 },
    { tutorEmail := "t@x", studentEmail := "s3@x", rating := 30, createdAt := 3 } ]

/-- One unread notification of user a. -/
def fixNotif : Notification :=
  { id := 1, userEmail := "a@x", kind := "message", message := "hi", link := "/x",
    read := false, createdAt := 5 }

/-- A stored bookmark of user u on item i1. -/
def fixBookmark : Bookmark :=
  { id := 1, userEmail := "u@x", itemId := "i1", itemType := "tuition", createdAt := 3 }

/-- A schedule created by creator c. -/
def fixSchedule : Schedule :=
  { id := 1, tuitionId := 1, tutorEmail := "tut@x", studentEmail := "stu@x",
    createdBy := "creator@x", creatorRole := "student", status := "scheduled",
    createdAt := 7 }

/-- The failure pattern for the demo-payment handler in which the write after
the payment insertion (the application-status update) throws. -/
def fixFailSecond : Nat → Bool := fun k => k == 1

/-! ### Lemmas about the embedded MongoDB operations -/

theorem mem_of_mem_deleteFirst {α : Type} {p : α → Bool} {l : List α} {x : α}
    (h : x ∈ deleteFirst p l) : x ∈ l := by
  induction l with
  | nil => simpa [deleteFirst] using h
  | cons y ys ih =>
    cases hp : p y <;> simp [deleteFirst, hp] at h
    · rcases h with h | h
      · exact h ▸ List.mem_cons_self y ys
      · exact List.mem_cons_of_mem _ (ih h)
    · exact List.mem_cons_of_mem _ h

theorem length_deleteFirst {α : Type} {p : α → Bool} {l : List α}
    (h : ∃ x ∈ l, p x) : (deleteFirst p l).length + 1 = l.length := by
  induction l with
  | nil => simp at h
  | cons y ys ih =>
    cases hp : p y <;> simp [deleteFirst, hp]
    rcases h with ⟨x, hx, hpx⟩
    rcases List.mem_cons.mp hx with rfl | hx
    · rw [hpx] at hp; cases hp
    · exact ih ⟨x, hx, hpx⟩

theorem deleteFirst_append_singleton {α : Type} {p : α → Bool} {l : List α} {x : α}
    (hl : ∀ y ∈ l, p y = false) (hx : p x = true) : deleteFirst p (l ++ [x]) = l := by
  induction l with
  | nil => simp [deleteFirst, hx]
  | cons y ys ih =>
    have hy : p y = false := hl y (List.mem_cons_self y ys)
    simp only [List.cons_append, deleteFirst, hy]
    simp [ih (fun z hz => hl z (List.mem_cons_of_mem _ hz))]

theorem mem_deleteFirst_key {α : Type} (key : α → Nat) {b : α} {l : List α}
    (hnodup : (l.map key).Nodup) (hb : b ∈ l) :
    ∀ x ∈ deleteFirst (fun a => key a == key b) l, x ∈ l ∧ x ≠ b := by
  induction l with
  | nil => simp [deleteFirst]
  | cons y ys ih =>
    rw [List.map_cons, List.nodup_cons] at hnodup
    intro x hx
    cases hy : (key y == key b)
    · simp only [deleteFirst, hy] at hx
      rcases List.mem_cons.mp hx with rfl | hx
      · refine ⟨List.mem_cons_self x ys, ?_⟩
        intro rfl_eq
        subst rfl_eq
        simp at hy
      · have hbys : b ∈ ys := by
          rcases List.mem_cons.mp hb with rfl | h
          · simp at hy
          · exact h
        obtain ⟨h1, h2⟩ := ih hnodup.2 hbys x hx
        exact ⟨List.mem_cons_of_mem _ h1, h2⟩
    · simp only [deleteFirst, hy] at hx
      refine ⟨List.mem_cons_of_mem _ hx, ?_⟩
      intro hxb
      subst hxb
      have hkey : key y = key x := by simpa using hy
      exact hnodup.1 (hkey ▸ List.mem_map_of_mem key hx)

theorem updateFirst_eq_map {α : Type} {p : α → Bool} {f : α → α} {l : List α}
    (h : l.countP p ≤ 1) :
    updateFirst p f l = l.map (fun x => if p x then f x else x) := by
  induction l with
  | nil => rfl
  | cons y ys ih =>
    rw [List.countP_cons] at h
    cases hp : p y
    · have hys : ys.countP p ≤ 1 := by simp [hp] at h; omega
      simp [updateFirst, hp, ih hys]
    · have h0 : ys.countP p = 0 := by
        simp only [hp, if_true] at h
        omega
      have hall : ∀ x ∈ ys, ¬ p x = true := List.countP_eq_zero.mp h0
      have hmap : ys.map (fun x => if p x then f x else x) = ys := by
        have := List.map_congr_left (l := ys)
          (f := fun x => if p x then f x else x) (g := id)
          (fun a ha => by simp [hall a ha])
        simpa using this
      simp [updateFirst, hp, hmap]

theorem countP_key_le_one {α : Type} (key : α → Nat) {l : List α}
    (h : (l.map key).Nodup) (k : Nat) :
    l.countP (fun x => key x == k) ≤ 1 := by
  induction l with
  | nil => simp
  | cons y ys ih =>
    rw [List.map_cons, List.nodup_cons] at h
    rw [List.countP_cons]
    cases hy : (key y == k)
    · simpa using ih h.2
    · have h0 : ys.countP (fun x => key x == k) = 0 := by
        refine List.countP_eq_zero.mpr (fun a ha hpa => ?_)
        have hak : key a = k := by simpa using hpa
        have hyk : key y = k := by simpa using hy
        exact h.1 (by rw [hyk, ← hak]; exact List.mem_map_of_mem key ha)
      simp [h0, hy]

theorem countP_split {α : Type} (p q : α → Bool) (l : List α) :
    l.countP p =
      l.countP (fun x => p x && q x) + l.countP (fun x => p x && !q x) := by
  induction l with
  | nil => simp
  | cons y ys ih =>
    rw [List.countP_cons, List.countP_cons, List.countP_cons]
    cases hp : p y <;> cases hq : q y <;> simp [hp, hq] <;> omega

theorem zip_map_snd {α β : Type} (f : α → β) (l : List α) :
    ∀ pr ∈ l.zip (l.map f), pr.2 = f pr.1 := by
  induction l with
  | nil => simp
  | cons y ys ih =>
    intro pr hpr
    rw [List.map_cons, List.zip_cons_cons] at hpr
    rcases List.mem_cons.mp hpr with rfl | hpr
    · rfl
    · exact ih pr hpr

theorem mem_insertSorted {α : Type} (le : α → α → Bool) (x : α) (l : List α) (y : α) :
    y ∈ insertSorted le x l ↔ y = x ∨ y ∈ l := by
  induction l with
  | nil => simp [insertSorted]
  | cons z zs ih =>
    cases h : le x z <;> simp [insertSorted, h, ih] <;> tauto

theorem mem_sortByBool {α : Type} (le : α → α → Bool) (l : List α) (y : α) :
    y ∈ sortByBool le l ↔ y ∈ l := by
  induction l with
  | nil => simp [sortByBool]
  | cons z zs ih =>
    have hstep : sortByBool le (z :: zs) = insertSorted le z (sortByBool le zs) := rfl
    rw [hstep, mem_insertSorted, ih]
    simp

/-! ### Role gate (C6) -/

theorem gate_if_eq_proceed {role req : String} :
    ((if role == req then GateResult.proceed else GateResult.forbidden) =
      GateResult.proceed) ↔ role = req := by
  cases h : role == req
  · simp only [h, Bool.false_eq_true, if_false]
    exact iff_of_false (by simp) (by simpa using h)
  · have hr : role = req := by simpa using h
    simp [h, hr]

theorem gate_if_eq_forbidden {role req : String} (h : role ≠ req) :
    (if role == req then GateResult.proceed else GateResult.forbidden) =
      GateResult.forbidden := by
  have hb : (role == req) = false := by simpa using h
  simp [hb]

/-- C6: each role-gate middleware looks the caller up by the verified email;
when no user document exists, or the stored role string differs from the
required role, the outcome is Forbidden — and a forbidden gate answers 403
without invoking the gated handler; with a matching stored role the request
proceeds. -/
theorem role_gate_spec (email : String) (users : List User) :
    (users.find? (fun u => u.email == email) = none →
      verifySTUDENT email users = .forbidden ∧
      verifyTUTOR email users = .forbidden ∧
      verifyADMIN email users = .forbidden) ∧
    (∀ u, users.find? (fun u => u.email == email) = some u →
      (verifySTUDENT email users = .proceed ↔ u.role = "student") ∧
      (verifyTUTOR email users = .proceed ↔ u.role = "tutor") ∧
      (verifyADMIN email users = .proceed ↔ u.role = "admin") ∧
      (u.role ≠ "student" → verifySTUDENT email users = .forbidden) ∧
      (u.role ≠ "tutor" → verifyTUTOR email users = .forbidden) ∧
      (u.role ≠ "admin" → verifyADMIN email users = .forbidden)) ∧
    (∀ (handler : Store → Store × Nat) (s : Store) (g : GateResult),
      g = .forbidden → runGated g handler s = (s, 403)) := by
  refine ⟨?_, ?_, ?_⟩
  · intro hnone
    refine ⟨?_, ?_, ?_⟩ <;> simp [verifySTUDENT, verifyTUTOR, verifyADMIN, hnone]
  · intro u hu
    refine ⟨?_, ?_, ?_, ?_, ?_, ?_⟩
    · simpa [verifySTUDENT, hu] using gate_if_eq_proceed
    · simpa [verifyTUTOR, hu] using gate_if_eq_proceed
    · simpa [verifyADMIN, hu] using gate_if_eq_proceed
    · intro hr
      simpa [verifySTUDENT, hu] using gate_if_eq_forbidden hr
    · intro hr
      simpa [verifyTUTOR, hu] using gate_if_eq_forbidden hr
    · intro hr
      simpa [verifyADMIN, hu] using gate_if_eq_forbidden hr
  · intro handler s g hg
    subst hg
    rfl

/-- Witness for C6 on a concrete store: a stored student passes the student
gate and is rejected by the admin gate. -/
theorem role_gate_spec_witness :
    verifySTUDENT "owner@x" fixUsers = .proceed ∧
    verifyADMIN "owner@x" fixUsers = .forbidden := by
  have h := (role_gate_spec "owner@x" fixUsers).2.1 fixStudent rfl
  exact ⟨h.1.mpr rfl, h.2.2.2.2.2 (by decide)⟩

/-! ### User creation idempotence (C9) -/

theorem normalizeUser_email (u : User) : (normalizeUser u).email = u.email := by
  unfold normalizeUser
  split <;> rfl

/-- C9: POST /user is idempotent on the email key — if a user document with
the submitted email exists the collection is unchanged and `insertedId` is
null, otherwise exactly one document is inserted; running the handler twice
with the same payload leaves the collection as after one run. -/
theorem post_user_idempotent (u : User) (users : List User) :
    ((users.find? (fun x => x.email == u.email)).isSome →
      postUser u users = (users, none)) ∧
    (users.find? (fun x => x.email == u.email) = none →
      postUser u users = (users ++ [normalizeUser u], some (normalizeUser u).id)) ∧
    (postUser u (postUser u users).1 = ((postUser u users).1, none)) := by
  have hpred : (fun (x : User) => x.email == (normalizeUser u).email) =
      (fun x => x.email == u.email) := by
    funext x
    rw [normalizeUser_email]
  refine ⟨?_, ?_, ?_⟩
  · intro hsome
    rcases Option.isSome_iff_exists.mp hsome with ⟨w, hw⟩
    simp [postUser, hpred, hw]
  · intro hnone
    simp [postUser, hpred, hnone]
  · cases hfind : users.find? (fun x => x.email == u.email)
    · have h1 : (postUser u users).1 = users ++ [normalizeUser u] := by
        simp [postUser, hpred, hfind]
      rw [h1]
      have hself : ((normalizeUser u).email == (normalizeUser u).email) = true := by simp
      have happ : (users ++ [normalizeUser u]).find?
          (fun x => x.email == (normalizeUser u).email) = some (normalizeUser u) := by
        rw [List.find?_append]
        rw [show users.find? (fun x => x.email == (normalizeUser u).email) = none from
          hpred ▸ hfind]
        simp
      simp [postUser, happ]
    · have h1 : (postUser u users).1 = users := by
        simp [postUser, hpred, hfind]
      rw [h1]
      simp [postUser, hpred, hfind]

/-- Witness for C9: inserting a fresh user then replaying the same payload
keeps the collection unchanged and reports a null insertedId. -/
theorem post_user_idempotent_witness :
    postUser fixStudent [] = ([normalizeUser fixStudent], some (normalizeUser fixStudent).id) ∧
    postUser fixStudent (postUser fixStudent []).1 = ((postUser fixStudent []).1, none) := by
  have h := post_user_idempotent fixStudent []
  exact ⟨by simpa using h.2.1 rfl, h.2.2⟩

/-! ### Duplicate application conflict (C3) -/

/-- C3: when an application with the same `(tutorEmail, tuitionId)` pair is
already stored, both POST /apply-tuition and POST /tuition-application answer
409 Conflict and leave the store unchanged — no application is inserted. -/
theorem duplicate_application_conflict
    (tutorEmail : String) (tuitionId : Nat)
    (qualification expectedSalary message availability experience : Option String)
    (newId now newId2 now2 : Nat) (s : Store)
    (hdup : ∃ a ∈ s.applications, a.tutorEmail = tutorEmail ∧ a.tuitionId = tuitionId) :
    applyTuition tutorEmail tuitionId qualification expectedSalary newId now s = (s, 409) ∧
    tuitionApplication tutorEmail tuitionId message expectedSalary availability
      experience newId2 now2 s = (s, 409) := by
  have hfind : (s.applications.find?
      (fun a => a.tutorEmail == tutorEmail && a.tuitionId == tuitionId)).isSome := by
    rw [List.find?_isSome]
    rcases hdup with ⟨a, ha, h1, h2⟩
    exact ⟨a, ha, by simp [h1, h2]⟩
  rcases Option.isSome_iff_exists.mp hfind with ⟨b, hb⟩
  constructor
  · simp [applyTuition, hb]
  · simp [tuitionApplication, hb]

/-- Witness for C3: tutor t1 already applied to tuition 1 in the fixture
store, so a second submission through either endpoint yields 409. -/
theorem duplicate_application_conflict_witness :
    applyTuition "t1@x" 1 none none 9 99 fixStore = (fixStore, 409) ∧
    tuitionApplication "t1@x" 1 none none none none 9 99 fixStore = (fixStore, 409) :=
  duplicate_application_conflict "t1@x" 1 none none none none none 9 99 9 99 fixStore
    ⟨fixAppA, List.mem_cons_self fixAppA [fixAppB], rfl, rfl⟩

/-! ### Tutor rating (C5) -/

/-- C5 counterexample: for stored reviews with ratings [5,4,3] the endpoint
returns an average of 4.0 (40 tenths), not the 3.0 (30 tenths) the claim
states. -/
theorem tutor_rating_543_ce :
    (tutorRating "t@x" fixReviews543).averageRatingTenths = 40 ∧ (40 : Int) ≠ 30 := by
  constructor
  · rfl
  · decide

/-- C5 amended: a tutor with zero stored reviews gets average 0 with count 0;
for stored ratings [5,4,3] the endpoint returns average 4.0 (40 tenths,
(5+4+3)/3 = 4.0 after toFixed(1)) and count 3. -/
theorem tutor_rating_values (tutorEmail : String) (reviews : List Review) :
    ((reviews.filter (fun r => r.tutorEmail == tutorEmail)).length = 0 →
      tutorRating tutorEmail reviews = { averageRatingTenths := 0, totalReviews := 0 }) ∧
    tutorRating "t@x" fixReviews543 = { averageRatingTenths := 40, totalReviews := 3 } := by
  constructor
  · intro hlen
    simp [tutorRating, hlen]
  · rfl

/-- Witness for C5: the zero-review branch applied to the empty collection. -/
theorem tutor_rating_values_witness :
    tutorRating "t@x" [] = { averageRatingTenths := 0, totalReviews := 0 } :=
  (tutor_rating_values "t@x" []).1 rfl

/-! ### Mark-all-notifications-read (C8) -/

/-- C8: after PATCH /notifications/read-all for user u, every notification of
u (in particular every previously-unread one) has read = true, notifications
of other users are completely unchanged, and no field other than `read` is
changed on any notification.  The i-th output notification is paired with the
i-th input notification by `zip`. -/
theorem mark_all_read_spec (u : String) (l : List Notification) :
    (markAllRead u l).length = l.length ∧
    ∀ pr ∈ l.zip (markAllRead u l),
      (pr.1.userEmail = u → pr.2.read = true) ∧
      (pr.1.userEmail ≠ u → pr.2 = pr.1) ∧
      (pr.2.id = pr.1.id ∧ pr.2.userEmail = pr.1.userEmail ∧ pr.2.kind = pr.1.kind ∧
        pr.2.message = pr.1.message ∧ pr.2.link = pr.1.link ∧
        pr.2.createdAt = pr.1.createdAt) := by
  constructor
  · simp [markAllRead, updateAll]
  · intro pr hpr
    have hpr2 : pr ∈ l.zip (l.map (fun n : Notification =>
        if n.userEmail == u && n.read == false then { n with read := true } else n)) := hpr
    have h2 := zip_map_snd (fun n : Notification =>
        if n.userEmail == u && n.read == false then { n with read := true } else n) l pr hpr2
    rcases pr with ⟨n, m⟩
    simp only at h2
    refine ⟨?_, ?_, ?_⟩
    · intro hu
      have hu2 : n.userEmail = u := hu
      cases hrd : n.read
      · rw [h2]
        simp [hu2, hrd]
      · rw [h2]
        simp [hu2, hrd]
    · intro hu
      have hu2 : (n.userEmail == u) = false := by simpa using hu
      rw [h2]
      simp [hu2]
    · rw [h2]
      split <;> simp

/-- Witness for C8 on a one-notification store: the unread notification of
user a ends up read, with every other field unchanged. -/
theorem mark_all_read_spec_witness :
    (markAllRead "a@x" [fixNotif]).length = [fixNotif].length ∧
    ((⟨fixNotif, { fixNotif with read := true }⟩ : Notification × Notification)).2.read = true := by
  have h := mark_all_read_spec "a@x" [fixNotif]
  refine ⟨h.1, ?_⟩
  have hz : ((⟨fixNotif, { fixNotif with read := true }⟩ : Notification × Notification)) ∈
      [fixNotif].zip (markAllRead "a@x" [fixNotif]) := by decide
  exact (h.2 _ hz).1 rfl

/-! ### Bookmark toggle (C10) -/

/-- C10: with at most one stored bookmark per `(userEmail, itemId, type)`
triple (the invariant the toggle itself maintains) and MongoDB-unique `_id`s,
POST /bookmarks inserts exactly one bookmark and reports `bookmarked: true`
when no match exists, deletes the matching bookmark and reports
`bookmarked: false` when one exists, and two consecutive toggles restore the
original membership of the triple in the store. -/
theorem bookmark_toggle_spec (ue it ty : String) (bms : List Bookmark)
    (id1 now1 id2 now2 : Nat)
    (hnodup : (bms.map (fun b => b.id)).Nodup)
    (hfresh : id1 ∉ bms.map (fun b => b.id))
    (huniq : ∀ x ∈ bms, ∀ y ∈ bms,
      bookmarkMatches ue it ty x → bookmarkMatches ue it ty y → x = y) :
    (bms.find? (bookmarkMatches ue it ty) = none →
      toggleBookmark ue it ty id1 now1 bms = (bms ++ [mkBookmark ue it ty id1 now1], true)) ∧
    (∀ b, bms.find? (bookmarkMatches ue it ty) = some b →
      (toggleBookmark ue it ty id1 now1 bms).2 = false ∧
      (toggleBookmark ue it ty id1 now1 bms).1.length + 1 = bms.length ∧
      ∀ x ∈ (toggleBookmark ue it ty id1 now1 bms).1, x ∈ bms) ∧
    hasBookmark ue it ty
        (toggleBookmark ue it ty id2 now2 (toggleBookmark ue it ty id1 now1 bms).1).1 =
      hasBookmark ue it ty bms := by
  cases hfind : bms.find? (bookmarkMatches ue it ty) with
  | none =>
    refine ⟨fun _ => by simp [toggleBookmark, hfind], ?_, ?_⟩
    · intro b hb
      simp at hb
    · have h1 : (toggleBookmark ue it ty id1 now1 bms).1 =
          bms ++ [mkBookmark ue it ty id1 now1] := by
        simp [toggleBookmark, hfind]
      rw [h1]
      have hmatch : bookmarkMatches ue it ty (mkBookmark ue it ty id1 now1) = true := by
        simp [bookmarkMatches, mkBookmark]
      have happ : (bms ++ [mkBookmark ue it ty id1 now1]).find? (bookmarkMatches ue it ty) =
          some (mkBookmark ue it ty id1 now1) := by
        rw [List.find?_append, hfind]
        simp [hmatch]
      have hdel : deleteFirst (fun x => x.id == (mkBookmark ue it ty id1 now1).id)
          (bms ++ [mkBookmark ue it ty id1 now1]) = bms := by
        refine deleteFirst_append_singleton (fun y hy => ?_) (by simp)
        have hne : y.id ≠ id1 := by
          intro hid
          exact hfresh (hid ▸ List.mem_map_of_mem (fun b => b.id) hy)
        simpa [mkBookmark] using hne
      simp [toggleBookmark, happ, hdel]
  | some b =>
    have hbmem : b ∈ bms := List.mem_of_find?_eq_some hfind
    have hbmatch : bookmarkMatches ue it ty b = true := List.find?_some hfind
    have h1 : (toggleBookmark ue it ty id1 now1 bms).1 =
        deleteFirst (fun x => x.id == b.id) bms := by
      simp [toggleBookmark, hfind]
    refine ⟨?_, ?_, ?_⟩
    · intro hnone
      simp at hnone
    · intro b' hb'
      refine ⟨by simp [toggleBookmark, hfind], ?_, ?_⟩
      · rw [h1]
        exact length_deleteFirst ⟨b, hbmem, by simp⟩
      · intro x hx
        rw [h1] at hx
        exact mem_of_mem_deleteFirst hx
    · have hsub := mem_deleteFirst_key (fun x => x.id) hnodup hbmem
      have hnone2 : (deleteFirst (fun x => x.id == b.id) bms).find?
          (bookmarkMatches ue it ty) = none := by
        refine List.find?_eq_none.mpr (fun x hx hmx => ?_)
        obtain ⟨hxl, hxne⟩ := hsub x hx
        exact hxne (huniq x hxl b hbmem hmx hbmatch)
      rw [h1]
      have h2 : (toggleBookmark ue it ty id2 now2
          (deleteFirst (fun x => x.id == b.id) bms)).1 =
          deleteFirst (fun x => x.id == b.id) bms ++ [mkBookmark ue it ty id2 now2] := by
        simp [toggleBookmark, hnone2]
      rw [h2]
      have hmatch2 : bookmarkMatches ue it ty (mkBookmark ue it ty id2 now2) = true := by
        simp [bookmarkMatches, mkBookmark]
      simp [hasBookmark, List.find?_append, hnone2, hfind, hmatch2]

/-- Witness for C10: toggling twice on a one-bookmark store reports removal
then leaves the membership of the triple as it started. -/
theorem bookmark_toggle_spec_witness :
    (toggleBookmark "u@x" "i1" "tuition" 2 9 [fixBookmark]).2 = false ∧
    hasBookmark "u@x" "i1" "tuition"
        (toggleBookmark "u@x" "i1" "tuition" 3 10
          (toggleBookmark "u@x" "i1" "tuition" 2 9 [fixBookmark]).1).1 =
      hasBookmark "u@x" "i1" "tuition" [fixBookmark] := by
  have h := bookmark_toggle_spec "u@x" "i1" "tuition" [fixBookmark] 2 9 3 10
    (by decide) (by decide) (by decide)
  exact ⟨(h.2.1 fixBookmark rfl).1, h.2.2⟩

/-! ### Ownership checks on delete (C7) -/

/-- C7 counterexample: a student who is not the owner of application 1
(owned by owner@x) passes the student role gate and DELETE /applications/:id
deletes the document and answers 200 — not the 403-and-unchanged the claim
requires. -/
theorem delete_application_no_ownership_ce :
    runGated (verifySTUDENT "other@x" fixUsers)
        (fun apps => deleteApplicationHandler 1 apps) [fixAppA] = ([], 200) ∧
    fixAppA.studentEmail ≠ some "other@x" ∧
    (([] : List Application), (200 : Nat)) ≠ ([fixAppA], 403) := by
  refine ⟨rfl, by decide, by decide⟩

/-- C7 amended: DELETE /schedules/:id enforces ownership — a caller other
than the creator receives 403 and the schedules are unchanged; but
DELETE /applications/:id has no ownership check — any caller passing the
student role gate gets 200 and the targeted application is deleted. -/
theorem ownership_check_amended
    (caller : String) (id : Nat) (schedules : List Schedule) (sch : Schedule)
    (apps : List Application) (users : List User) (a : Application)
    (hfind : schedules.find? (fun x => x.id == id) = some sch)
    (howner : lowerStr sch.createdBy ≠ lowerStr caller)
    (hgate : verifySTUDENT caller users = .proceed)
    (hmem : a ∈ apps) (haid : a.id = id)
    (hnodup : (apps.map (fun x => x.id)).Nodup) :
    deleteScheduleHandler caller id schedules = (schedules, 403) ∧
    (runGated (verifySTUDENT caller users)
        (fun l => deleteApplicationHandler id l) apps).2 = 200 ∧
    a ∉ (runGated (verifySTUDENT caller users)
        (fun l => deleteApplicationHandler id l) apps).1 := by
  refine ⟨?_, ?_, ?_⟩
  · have hb : (lowerStr sch.createdBy != lowerStr caller) = true := by
      simpa using howner
    simp [deleteScheduleHandler, hfind, hb]
  · rw [hgate]
    rfl
  · rw [hgate]
    intro hin
    subst haid
    have hin2 : a ∈ deleteFirst (fun x => x.id == a.id) apps := hin
    have hk := mem_deleteFirst_key (fun x => x.id) hnodup hmem a hin2
    exact hk.2 rfl

/-- Witness for C7 (amended): on the fixtures, the non-creator's schedule
delete is refused with the store unchanged, while the non-owner student's
application delete removes the document with a 200. -/
theorem ownership_check_amended_witness :
    deleteScheduleHandler "other@x" 1 [fixSchedule] = ([fixSchedule], 403) ∧
    (runGated (verifySTUDENT "other@x" fixUsers)
        (fun l => deleteApplicationHandler 1 l) [fixAppA]).2 = 200 ∧
    fixAppA ∉ (runGated (verifySTUDENT "other@x" fixUsers)
        (fun l => deleteApplicationHandler 1 l) [fixAppA]).1 :=
  ownership_check_amended "other@x" 1 [fixSchedule] fixSchedule [fixAppA]
    fixUsers fixAppA rfl (by decide) rfl (List.mem_cons_self fixAppA []) rfl
    (by decide)

/-! ### Public tuition listing shows only approved posts (C4) -/

/-- C4: whatever the search/filter/sort/page parameters and the stored posts,
every tuition in the `data` array of GET /tuitions has status `approved` —
the query object always carries `status: 'approved'`. -/
theorem tuitions_listing_only_approved (q : TuitionsQuery) (tuitions : List Tuition) :
    ∀ t ∈ (getTuitions q tuitions).data, t.status = "approved" := by
  intro t ht
  have ht2 : t ∈ ((sortByBool (tuitionLe q.sort) (tuitions.filter (tuitionMatches q))).drop
      (((if q.page == 0 then 1 else q.page) - 1) * (if q.limit == 0 then 9 else q.limit))).take
      (if q.limit == 0 then 9 else q.limit) := ht
  have h3 := List.mem_of_mem_drop (List.mem_of_mem_take ht2)
  have h4 := (mem_sortByBool (tuitionLe q.sort) (tuitions.filter (tuitionMatches q)) t).mp h3
  have h5 := (List.mem_filter.mp h4).2
  simp only [tuitionMatches, Bool.and_eq_true, beq_iff_eq] at h5
  exact h5.1.1.1.1

/-- Witness for C4: with default parameters on a store holding one approved
and one pending post, the listed post is approved. -/
theorem tuitions_listing_only_approved_witness :
    fixTuition.status = "approved" :=
  tuitions_listing_only_approved
    { page := 0, limit := 0, search := none, sort := none, subject := none,
      location := none, stuClass := none }
    [fixTuition, fixPendingTuition] fixTuition (by decide)

/-! ### Hiring workflow (C1) -/

/-- C1 counterexample: POST /process-payment has no rejection step.  On the
fixture store with two pending applications for tuition 1, settling
application 1 leaves application 2 (same tuitionId, different id) with status
`pending`, not `rejected` — so the claim fails for this handler. -/
theorem process_payment_no_reject_ce :
    (processPayment "owner@x" "t1@x" "TX1" 1 1 100 none 50 fixStore).1.applications =
      [{ fixAppA with status := "accepted" }, fixAppB] ∧
    fixAppB.tuitionId = 1 ∧ fixAppB.id ≠ 1 ∧ fixAppB.status ≠ "rejected" := by
  refine ⟨rfl, rfl, by decide, by decide⟩

/-- C1 amended: the five-step guarantee holds in full for POST /payments/demo
(one new `paid` payment, chosen application `approved`, tuition's
assigned-tutor fields set, every other application of the tuition `rejected`,
so exactly one application of the tuition is approved and the remaining N−1
are rejected); POST /process-payment performs only the first steps (payment
`paid`, chosen application `accepted`, tuition's `assignedTutorEmail`) and
leaves every other application exactly as it was. -/
theorem hiring_settle_spec
    (studentEmail tutorEmail transactionId : String) (applicationId tuitionId : Nat)
    (amount : Int) (method : Option String) (now : Nat) (s : Store)
    (app : Application) (tu : Tuition)
    (happ : app ∈ s.applications) (happid : app.id = applicationId)
    (happtid : app.tuitionId = tuitionId)
    (hnodupA : (s.applications.map (fun a => a.id)).Nodup)
    (htu : tu ∈ s.tuitions) (htuid : tu.id = tuitionId)
    (hnodupT : (s.tuitions.map (fun t => t.id)).Nodup) :
    (paymentsDemo studentEmail tutorEmail applicationId tuitionId amount now s).1.payments =
      s.payments ++ [demoPaymentDoc studentEmail tutorEmail applicationId tuitionId amount now] ∧
    (demoPaymentDoc studentEmail tutorEmail applicationId tuitionId amount now).status = "paid" ∧
    (∀ a ∈ (paymentsDemo studentEmail tutorEmail applicationId tuitionId amount now s).1.applications,
      a.id = applicationId → a.status = "approved") ∧
    (∀ a ∈ (paymentsDemo studentEmail tutorEmail applicationId tuitionId amount now s).1.applications,
      a.id ≠ applicationId → a.tuitionId = tuitionId → a.status = "rejected") ∧
    (∀ t ∈ (paymentsDemo studentEmail tutorEmail applicationId tuitionId amount now s).1.tuitions,
      t.id = tuitionId →
        t.assignedTutorEmail = some tutorEmail ∧ t.assignedTutorId = some tutorEmail) ∧
    ((paymentsDemo studentEmail tutorEmail applicationId tuitionId amount now s).1.applications.countP
      (fun a => a.tuitionId == tuitionId && a.status == "approved") = 1) ∧
    ((paymentsDemo studentEmail tutorEmail applicationId tuitionId amount now s).1.applications.countP
      (fun a => a.tuitionId == tuitionId && a.status == "rejected") + 1 =
      s.applications.countP (fun a => a.tuitionId == tuitionId)) ∧
    (paymentsDemo studentEmail tutorEmail applicationId tuitionId amount now s).2 = 200 ∧
    (processPayment studentEmail tutorEmail transactionId applicationId tuitionId amount method now s).1.payments =
      s.payments ++ [processPaymentDoc transactionId studentEmail tutorEmail tuitionId applicationId amount method now] ∧
    (∀ a ∈ (processPayment studentEmail tutorEmail transactionId applicationId tuitionId amount method now s).1.applications,
      a.id = applicationId → a.status = "accepted") ∧
    (∀ t ∈ (processPayment studentEmail tutorEmail transactionId applicationId tuitionId amount method now s).1.tuitions,
      t.id = tuitionId → t.assignedTutorEmail = some tutorEmail) ∧
    (∀ a ∈ (processPayment studentEmail tutorEmail transactionId applicationId tuitionId amount method now s).1.applications,
      a.id ≠ applicationId → a ∈ s.applications) := by
  have hc : s.applications.countP (fun a => a.id == applicationId) ≤ 1 :=
    countP_key_le_one (fun a : Application => a.id) hnodupA applicationId
  have hcT : s.tuitions.countP (fun t => t.id == tuitionId) ≤ 1 :=
    countP_key_le_one (fun t : Tuition => t.id) hnodupT tuitionId
  have happs : (paymentsDemo studentEmail tutorEmail applicationId tuitionId amount now s).1.applications =
      s.applications.map (fun b =>
        if b.id == applicationId then
          { b with status := "approved", paymentId := some ("DEMO_" ++ toString now) }
        else if b.tuitionId == tuitionId then { b with status := "rejected" } else b) := by
    have h1 : (paymentsDemo studentEmail tutorEmail applicationId tuitionId amount now s).1.applications =
        updateAll (fun a => a.tuitionId == tuitionId && a.id != applicationId)
          (fun a => { a with status := "rejected" })
          (updateFirst (fun a => a.id == applicationId)
            (fun a => { a with status := "approved", paymentId := some ("DEMO_" ++ toString now) })
            s.applications) := rfl
    rw [h1, updateFirst_eq_map hc]
    unfold updateAll
    rw [List.map_map]
    refine List.map_congr_left (fun b _ => ?_)
    cases hb1 : b.id == applicationId <;> cases hb2 : b.tuitionId == tuitionId <;>
      simp [Function.comp, hb1, hb2, bne]
  have htus : (paymentsDemo studentEmail tutorEmail applicationId tuitionId amount now s).1.tuitions =
      s.tuitions.map (fun t =>
        if t.id == tuitionId then
          { t with assignedTutorEmail := some tutorEmail, assignedTutorId := some tutorEmail }
        else t) := by
    have h1 : (paymentsDemo studentEmail tutorEmail applicationId tuitionId amount now s).1.tuitions =
        updateFirst (fun t => t.id == tuitionId)
          (fun t => { t with assignedTutorEmail := some tutorEmail, assignedTutorId := some tutorEmail })
          s.tuitions := rfl
    rw [h1, updateFirst_eq_map hcT]
  have hone : s.applications.countP
      (fun b => b.tuitionId == tuitionId && b.id == applicationId) = 1 := by
    have hle : s.applications.countP
        (fun b => b.tuitionId == tuitionId && b.id == applicationId) ≤ 1 := by
      refine le_trans (List.countP_mono_left (fun x _ hx => ?_)) hc
      simp at hx
      simp [hx.2]
    have hge : 0 < s.applications.countP
        (fun b => b.tuitionId == tuitionId && b.id == applicationId) :=
      List.countP_pos_iff.mpr ⟨app, happ, by simp [happid, happtid]⟩
    omega
  have happs2 : (processPayment studentEmail tutorEmail transactionId applicationId tuitionId amount method now s).1.applications =
      s.applications.map (fun b =>
        if b.id == applicationId then { b with status := "accepted" } else b) := by
    have h1 : (processPayment studentEmail tutorEmail transactionId applicationId tuitionId amount method now s).1.applications =
        updateFirst (fun a => a.id == applicationId)
          (fun a => { a with status := "accepted" }) s.applications := rfl
    rw [h1, updateFirst_eq_map hc]
  have htus2 : (processPayment studentEmail tutorEmail transactionId applicationId tuitionId amount method now s).1.tuitions =
      s.tuitions.map (fun t =>
        if t.id == tuitionId then { t with assignedTutorEmail := some tutorEmail } else t) := by
    have h1 : (processPayment studentEmail tutorEmail transactionId applicationId tuitionId amount method now s).1.tuitions =
        updateFirst (fun t => t.id == tuitionId)
          (fun t => { t with assignedTutorEmail := some tutorEmail }) s.tuitions := rfl
    rw [h1, updateFirst_eq_map hcT]
  refine ⟨rfl, rfl, ?_, ?_, ?_, ?_, ?_, rfl, rfl, ?_, ?_, ?_⟩
  · intro a ha hid
    rw [happs] at ha
    rcases List.mem_map.mp ha with ⟨b, _, rfl⟩
    cases hb1 : b.id == applicationId
    · exfalso
      cases hb2 : b.tuitionId == tuitionId <;> simp [hb1, hb2] at hid <;> simp [hid] at hb1
    · simp [hb1]
  · intro a ha hid htid
    rw [happs] at ha
    rcases List.mem_map.mp ha with ⟨b, _, rfl⟩
    cases hb1 : b.id == applicationId
    · cases hb2 : b.tuitionId == tuitionId
      · exfalso
        simp [hb1, hb2] at htid
        simp [htid] at hb2
      · simp [hb1, hb2]
    · exfalso
      simp [hb1] at hid
      exact hid (by simpa using hb1)
  · intro t ht htid2
    rw [htus] at ht
    rcases List.mem_map.mp ht with ⟨b, _, rfl⟩
    cases hb1 : b.id == tuitionId
    · exfalso
      simp [hb1] at htid2
      simp [htid2] at hb1
    · simp [hb1]
  · rw [happs, List.countP_map]
    have hcong : ∀ b ∈ s.applications,
        ((fun a => a.tuitionId == tuitionId && a.status == "approved") ∘
          (fun b : Application =>
            if b.id == applicationId then
              { b with status := "approved", paymentId := some ("DEMO_" ++ toString now) }
            else if b.tuitionId == tuitionId then { b with status := "rejected" } else b)) b =
        (b.tuitionId == tuitionId && b.id == applicationId) := by
      intro b _
      cases hb1 : b.id == applicationId <;> cases hb2 : b.tuitionId == tuitionId <;>
        simp [Function.comp, hb1, hb2]
    rw [List.countP_congr (fun a ha => by rw [hcong a ha])]
    exact hone
  · rw [happs, List.countP_map]
    have hcong2 : ∀ b ∈ s.applications,
        ((fun a => a.tuitionId == tuitionId && a.status == "rejected") ∘
          (fun b : Application =>
            if b.id == applicationId then
              { b with status := "approved", paymentId := some ("DEMO_" ++ toString now) }
            else if b.tuitionId == tuitionId then { b with status := "rejected" } else b)) b =
        (b.tuitionId == tuitionId && !(b.id == applicationId)) := by
      intro b _
      cases hb1 : b.id == applicationId <;> cases hb2 : b.tuitionId == tuitionId <;>
        simp [Function.comp, hb1, hb2]
    rw [List.countP_congr (fun a ha => by rw [hcong2 a ha])]
    have hsplit : s.applications.countP (fun b => b.tuitionId == tuitionId) =
        s.applications.countP (fun b => b.tuitionId == tuitionId && b.id == applicationId) +
        s.applications.countP (fun b => b.tuitionId == tuitionId && !(b.id == applicationId)) :=
      countP_split (fun b : Application => b.tuitionId == tuitionId)
        (fun b => b.id == applicationId) s.applications
    omega
  · intro a ha hid
    rw [happs2] at ha
    rcases List.mem_map.mp ha with ⟨b, _, rfl⟩
    cases hb1 : b.id == applicationId
    · exfalso
      simp [hb1] at hid
      simp [hid] at hb1
    · simp [hb1]
  · intro t ht htid2
    rw [htus2] at ht
    rcases List.mem_map.mp ht with ⟨b, _, rfl⟩
    cases hb1 : b.id == tuitionId
    · exfalso
      simp [hb1] at htid2
      simp [htid2] at hb1
    · simp [hb1]
  · intro a ha hid
    rw [happs2] at ha
    rcases List.mem_map.mp ha with ⟨b, hb, rfl⟩
    cases hb1 : b.id == applicationId
    · simpa [hb1] using hb
    · exfalso
      simp [hb1] at hid
      exact hid (by simpa using hb1)

/-- Witness for C1 (amended) on the fixture store with two applications on
tuition 1: after the demo settle, exactly one application of the tuition is
approved and the other one (N−1 = 1) is rejected. -/
theorem hiring_settle_spec_witness :
    ((paymentsDemo "owner@x" "t1@x" 1 1 100 50 fixStore).1.applications.countP
      (fun a => a.tuitionId == 1 && a.status == "approved") = 1) ∧
    ((paymentsDemo "owner@x" "t1@x" 1 1 100 50 fixStore).1.applications.countP
      (fun a => a.tuitionId == 1 && a.status == "rejected") + 1 =
      fixStore.applications.countP (fun a => a.tuitionId == 1)) := by
  have h := hiring_settle_spec "owner@x" "t1@x" "TX1" 1 1 100 none 50 fixStore
    fixAppA fixTuition (List.mem_cons_self fixAppA [fixAppB]) rfl rfl (by decide)
    (List.mem_cons_self fixTuition []) rfl (by decide)
  exact ⟨h.2.2.2.2.2.1, h.2.2.2.2.2.2.1⟩

/-! ### Failure semantics of the demo settle (C2) -/

/-- C2 counterexample: when the write after the payment insertion (the
application-status update) throws, the inserted payment persists — but the
caller receives no response at all, not a 500: POST /payments/demo is a bare
async handler under Express 4, so its rejected promise never reaches the
error middleware and is only logged by the `unhandledRejection` listener. -/
theorem demo_failure_no_500_ce :
    (paymentsDemoFallible fixFailSecond "owner@x" "t1@x" 1 1 100 50 fixStore).1.payments =
      fixStore.payments ++ [demoPaymentDoc "owner@x" "t1@x" 1 1 100 50] ∧
    dispatchResponse paymentsDemoKind
      (paymentsDemoFallible fixFailSecond "owner@x" "t1@x" 1 1 100 50 fixStore).2 = none ∧
    (none : Option Nat) ≠ some 500 := by
  refine ⟨rfl, rfl, by decide⟩

/-- C2 amended: after a successful payment insertion, a thrown error in any
later write of POST /payments/demo is not rolled back — the inserted payment
document (and every write completed before the failing one) persists — but
the caller receives no response rather than a 500, because the handler is a
bare async function: under Express 4 its rejected promise bypasses the
error middleware (a 500 would be produced only for handlers wrapped in
`catchAsync`). -/
theorem demo_failure_semantics (fails : Nat → Bool)
    (studentEmail tutorEmail : String) (applicationId tuitionId : Nat)
    (amount : Int) (now : Nat) (s : Store)
    (h0 : fails 0 = false)
    (hlater : fails 1 = true ∨ fails 2 = true ∨ fails 3 = true) :
    (paymentsDemoFallible fails studentEmail tutorEmail applicationId tuitionId
        amount now s).1.payments =
      s.payments ++ [demoPaymentDoc studentEmail tutorEmail applicationId tuitionId amount now] ∧
    (paymentsDemoFallible fails studentEmail tutorEmail applicationId tuitionId
        amount now s).2 = .error () ∧
    dispatchResponse paymentsDemoKind
      (paymentsDemoFallible fails studentEmail tutorEmail applicationId tuitionId
        amount now s).2 = none := by
  cases h1 : fails 1 <;> cases h2 : fails 2 <;> cases h3 : fails 3 <;>
    simp [h1, h2, h3] at hlater ⊢ <;>
    simp [paymentsDemoFallible, dispatchResponse, paymentsDemoKind, h0, h1, h2, h3]

/-- Witness for C2 (amended): the concrete run in which the second write
throws. -/
theorem demo_failure_semantics_witness :
    (paymentsDemoFallible fixFailSecond "owner@x" "t1@x" 1 1 100 50 fixStore).1.payments =
      fixStore.payments ++ [demoPaymentDoc "owner@x" "t1@x" 1 1 100 50] ∧
    (paymentsDemoFallible fixFailSecond "owner@x" "t1@x" 1 1 100 50 fixStore).2 = .error () ∧
    dispatchResponse paymentsDemoKind
      (paymentsDemoFallible fixFailSecond "owner@x" "t1@x" 1 1 100 50 fixStore).2 = none :=
  demo_failure_semantics fixFailSecond "owner@x" "t1@x" 1 1 100 50 fixStore rfl (Or.inl rfl)
